import Mathlib

/-!
Verification of `room_auto_poster.py`.

Text is modelled as `List Char` (a Python string is a sequence of Unicode
code points, so `len`, slicing and concatenation correspond to
`List.length`, `List.take` and `++`).  External calls (HTTP responses,
BeautifulSoup node lookup, Selenium element waits) are modelled as
function-valued parameters: each gives, for a concrete query, either the
value the library would return or the failure it would raise.
-/

/-- Whitespace class used by Python `str.split()` and `str.strip()`
(ASCII whitespace; the inputs relevant here contain no other
Unicode whitespace). -/
def pyIsSpace (c : Char) : Bool :=
  c = ' ' || c = '\t' || c = '\n' || c = '\r' || c = '\x0b' || c = '\x0c'

/-- Python `s.split()` with no separator: the maximal runs of
non-whitespace characters, in order; empty runs do not occur. -/
def pySplit (s : List Char) : List (List Char) :=
  match s with
  | [] => []
  | c :: rest =>
    if pyIsSpace c then pySplit rest
    else
      (c :: List.takeWhile (fun x => !pyIsSpace x) rest) ::
        pySplit (List.dropWhile (fun x => !pyIsSpace x) rest)
termination_by s.length
decreasing_by
  · simp only [List.length_cons]; omega
  · simp only [List.length_cons]
    exact Nat.lt_succ_of_le (List.Sublist.length_le (List.dropWhile_sublist _))

/-- Python `" ".join(s.split())`: collapse whitespace runs to single
spaces and trim the ends. -/
def joinSplit (s : List Char) : List Char :=
  List.intercalate [' '] (pySplit s)

/-- `_clean_text` from the source: `None`/empty input gives `None`,
otherwise whitespace-normalise (`" ".join(value.split())`). -/
def _clean_text : Option (List Char) → Option (List Char)
  | none => none
  | some value => if value.isEmpty then none else some (joinSplit value)

/-- Python `s.strip()`: drop leading and trailing whitespace. -/
def pyStrip (s : List Char) : List Char :=
  (((s.dropWhile pyIsSpace).reverse.dropWhile pyIsSpace)).reverse

/-- A matched document node: `content` is the value of its `content`
attribute when present (`has_attr("content")`/`node["content"]`), and
`text` is what `get_text(strip=True)` returns for it. -/
structure Node where
  content : Option (List Char)
  text : List Char

/-- A parsed document: `select_one` returns the first node matching a
CSS selector, or `none` when no node matches. -/
structure Soup where
  select_one : List Char → Option Node

/-- Text taken from a matched node: the `content` attribute when the
node carries one, otherwise the node's visible text. -/
def node_value (n : Node) : List Char :=
  match n.content with
  | some c => c
  | none => n.text

/-- `_first_text_match` from the source: try the selectors in order and
return the text of the first matching node. -/
def _first_text_match (soup : Soup) : List (List Char) → Option (List Char)
  | [] => none
  | sel :: rest =>
    match soup.select_one sel with
    | some node => some (node_value node)
    | none => _first_text_match soup rest

/-- `DEFAULT_TITLE_SELECTORS` from the source. -/
def DEFAULT_TITLE_SELECTORS : List (List Char) :=
  ["meta[property=\x27og:title\x27]".toList,
   "h1[itemprop=\x27name\x27]".toList,
   "title".toList]

/-- `DEFAULT_PRICE_SELECTORS` from the source. -/
def DEFAULT_PRICE_SELECTORS : List (List Char) :=
  ["span[itemprop=\x27price\x27]".toList,
   ".price2".toList,
   "span[class*=\x27price\x27]".toList]

/-- `DEFAULT_SHOP_SELECTORS` from the source. -/
def DEFAULT_SHOP_SELECTORS : List (List Char) :=
  ["a[itemprop=\x27seller\x27]".toList,
   "a[class*=\x27ShopName\x27]".toList]

/-- The default placeholder title used when no title selector matches. -/
def default_title : List Char := "楽天の商品".toList

/-- Python `x or d` for an optional string `x`: the default is taken
when `x` is `None` or the empty string (both falsy). -/
def py_or (v : Option (List Char)) (d : List Char) : List Char :=
  match v with
  | some s => if s.isEmpty then d else s
  | none => d

/-- `ProductInfo` from the source. -/
structure ProductInfo where
  title : List Char
  price : Option (List Char)
  shop_name : Option (List Char)
deriving DecidableEq

/-- The parsing tail of `fetch_product_info` (everything after the
HTTP response body has been parsed into `soup`). -/
def extract_product_info (soup : Soup) : ProductInfo :=
  let title := py_or (_first_text_match soup DEFAULT_TITLE_SELECTORS) default_title
  let title := if !title.isEmpty && title.contains '\n' then joinSplit title else title
  ⟨pyStrip title,
   _clean_text (_first_text_match soup DEFAULT_PRICE_SELECTORS),
   _clean_text (_first_text_match soup DEFAULT_SHOP_SELECTORS)⟩

/-- The review text assembled by `generate_review` before the length
cap is applied: summary line, blank line, and three bullet lines,
joined by newlines. -/
def review_untruncated (info : ProductInfo) : List Char :=
  let key_point_parts :=
    [info.title]
      ++ (match info.price with
          | some p => if p.isEmpty then [] else [p ++ "で手に入る".toList]
          | none => [])
      ++ (match info.shop_name with
          | some s => if s.isEmpty then [] else [s ++ "の人気アイテム".toList]
          | none => [])
  let key_point_summary := List.intercalate ['・'] key_point_parts
  let bullet_points :=
    ["デザイン: ".toList ++ info.title ++ "の魅力を活かした上質な仕上がり。".toList,
     "使い勝手: 日常から特別なシーンまで幅広く活躍。".toList,
     "満足度: 口コミでも高評価で贈り物にもおすすめ。".toList]
  let ls :=
    ["要点: ".toList ++ key_point_summary, []]
      ++ bullet_points.map (fun point => '・' :: point)
  List.intercalate ['\n'] ls

/-- `generate_review` from the source: the assembled text, truncated to
397 characters plus an ellipsis when it exceeds 400 characters. -/
def generate_review (info : ProductInfo) : List Char :=
  if (review_untruncated info).length > 400 then
    (review_untruncated info).take 397 ++ ['…']
  else review_untruncated info

/-- Selenium locator strategies used by the source (`By.ID`, `By.NAME`,
`By.CSS_SELECTOR`). -/
inductive By
  | id
  | name
  | css_selector
deriving DecidableEq

/-- A locator descriptor: a strategy paired with its query string. -/
def Locator : Type := By × List Char

instance : DecidableEq Locator := instDecidableEqProd

/-- `LOGIN_USERNAME_SELECTORS` from the source. -/
def LOGIN_USERNAME_SELECTORS : List Locator :=
  [(By.id, "loginInner_u".toList),
   (By.name, "u".toList),
   (By.name, "login_id".toList)]

/-- `LOGIN_PASSWORD_SELECTORS` from the source. -/
def LOGIN_PASSWORD_SELECTORS : List Locator :=
  [(By.id, "loginInner_p".toList),
   (By.name, "p".toList),
   (By.name, "passwd".toList)]

/-- `LOGIN_SUBMIT_SELECTORS` from the source. -/
def LOGIN_SUBMIT_SELECTORS : List Locator :=
  [(By.id, "loginInner_y".toList),
   (By.name, "submit".toList),
   (By.css_selector, "button[type=\x27submit\x27]".toList)]

/-- `DEFAULT_ROOM_REVIEW_SELECTORS` from the source. -/
def DEFAULT_ROOM_REVIEW_SELECTORS : List Locator :=
  [(By.css_selector, "textarea[name=\x27comment\x27]".toList),
   (By.css_selector, "textarea[class*=\x27comment\x27]".toList)]

/-- `DEFAULT_ROOM_SUBMIT_SELECTORS` from the source. -/
def DEFAULT_ROOM_SUBMIT_SELECTORS : List Locator :=
  [(By.css_selector, "button[type=\x27submit\x27]".toList),
   (By.css_selector, "button[class*=\x27submit\x27]".toList)]

/-- `RoomPosterConfig` from the source. -/
structure RoomPosterConfig where
  username : Option (List Char)
  password : Option (List Char)
  headless : Bool := true
  review_selectors : List Locator := DEFAULT_ROOM_REVIEW_SELECTORS
  submit_selectors : List Locator := DEFAULT_ROOM_SUBMIT_SELECTORS

/-- Message of the `TimeoutException` raised for an empty locator list. -/
def no_selectors_msg : List Char := "No selectors provided".toList

/-- The loop of `_find_first_element`, threading the `last_error`
accumulator.  `resolve loc` models `wait.until(presence_of(loc))`: the
element it yields, or the message of the `TimeoutException` or
`NoSuchElementException` it raises. -/
def find_first_go {E : Type} (resolve : Locator → Except (List Char) E)
    (lastError : Option (List Char)) : List Locator → Except (List Char) E
  | [] =>
    match lastError with
    | some msg => Except.error msg
    | none => Except.error no_selectors_msg
  | loc :: rest =>
    match resolve loc with
    | Except.ok e => Except.ok e
    | Except.error msg => find_first_go resolve (some msg) rest

/-- `_find_first_element` from the source: try each locator in order
with the given wait; return the first element found, raise a
`TimeoutException` carrying the last failure when all locators fail,
and a generic one when the list was empty. -/
def _find_first_element {E : Type} (resolve : Locator → Except (List Char) E)
    (selectors : List Locator) : Except (List Char) E :=
  find_first_go resolve none selectors

/-- Python truthiness of an optional string (`None` and `""` are falsy). -/
def opt_truthy : Option (List Char) → Bool
  | none => false
  | some s => !s.isEmpty

/-- How `login_if_required` returns: early return without credentials,
silent return when no login form is detected, the fatal
`RuntimeError("Unable to locate login submit button.")`, or a completed
login. -/
inductive LoginResult
  | noCredentials
  | noLoginForm
  | submitNotFound
  | loggedIn
deriving DecidableEq

/-- Browser interactions performed by `login_if_required`, in order. -/
inductive LoginAction
  | findUsernameField
  | findPasswordField
  | clearUsername
  | typeUsername
  | clearPassword
  | typePassword
  | findSubmitButton
  | clickSubmit
  | waitSingleWindow
  | pause
deriving DecidableEq

/-- `login_if_required` from the source, together with the sequence of
browser interactions it performs.  A failed `_find_first_element` call
raises `TimeoutException`, which the source catches for the username
and password fields (treated as "no login form") but converts into a
fatal `RuntimeError` for the submit button. -/
def login_if_required {E : Type} (resolve : Locator → Except (List Char) E)
    (config : RoomPosterConfig) : LoginResult × List LoginAction :=
  if !opt_truthy config.username || !opt_truthy config.password then
    (LoginResult.noCredentials, [])
  else
    match _find_first_element resolve LOGIN_USERNAME_SELECTORS with
    | Except.error _ => (LoginResult.noLoginForm, [LoginAction.findUsernameField])
    | Except.ok _ =>
      match _find_first_element resolve LOGIN_PASSWORD_SELECTORS with
      | Except.error _ =>
        (LoginResult.noLoginForm,
         [LoginAction.findUsernameField, LoginAction.findPasswordField])
      | Except.ok _ =>
        match _find_first_element resolve LOGIN_SUBMIT_SELECTORS with
        | Except.error _ =>
          (LoginResult.submitNotFound,
           [LoginAction.findUsernameField, LoginAction.findPasswordField,
            LoginAction.clearUsername, LoginAction.typeUsername,
            LoginAction.clearPassword, LoginAction.typePassword,
            LoginAction.findSubmitButton])
        | Except.ok _ =>
          (LoginResult.loggedIn,
           [LoginAction.findUsernameField, LoginAction.findPasswordField,
            LoginAction.clearUsername, LoginAction.typeUsername,
            LoginAction.clearPassword, LoginAction.typePassword,
            LoginAction.findSubmitButton, LoginAction.clickSubmit,
            LoginAction.waitSingleWindow, LoginAction.pause])

/-- Steps of the browser part of `main`, as observable events. -/
inductive WorkflowEvent
  | navigate
  | loginStep
  | postReview
  | quitDriver
deriving BEq, DecidableEq

/-- The `try` body of `main`: `navigate_to_room`, then
`login_if_required`, then `post_review`, each aborting the rest on an
exception.  `nav`, `login` and `post` are the outcomes of the three
calls. -/
def workflow_body {E : Type} (nav login post : Except E Unit) :
    Except E Unit × List WorkflowEvent :=
  match nav with
  | Except.error e => (Except.error e, [WorkflowEvent.navigate])
  | Except.ok _ =>
    match login with
    | Except.error e => (Except.error e, [WorkflowEvent.navigate, WorkflowEvent.loginStep])
    | Except.ok _ =>
      match post with
      | Except.error e =>
        (Except.error e,
         [WorkflowEvent.navigate, WorkflowEvent.loginStep, WorkflowEvent.postReview])
      | Except.ok _ =>
        (Except.ok (),
         [WorkflowEvent.navigate, WorkflowEvent.loginStep, WorkflowEvent.postReview])

/-- The `try ... finally: driver.quit()` of `main`: the body runs, and
`driver.quit()` is appended to the event trace on every path, whether
the body succeeded or raised. -/
def main_browser_phase {E : Type} (nav login post : Except E Unit) :
    Except E Unit × List WorkflowEvent :=
  let r := workflow_body nav login post
  (r.1, r.2 ++ [WorkflowEvent.quitDriver])

/-- Observable behaviour of the retry loop in `fetch_product_info`:
the body of the first successful response (`none` when the loop raised
`RuntimeError` after exhausting the attempts), the backoff sleeps
performed in order, and how many HTTP GET attempts were made. -/
structure FetchTrace (β : Type) where
  result : Option β
  sleeps : List Nat
  attempts : Nat
deriving DecidableEq

/-- Python `range(a, a + n)` as a list. -/
def range_from (a : Nat) : Nat → List Nat
  | 0 => []
  | n + 1 => a :: range_from (a + 1) n

/-- The `for attempt in range(1, retries + 1)` loop of
`fetch_product_info`.  `responses attempt` is the outcome of
`requests.get(...)` followed by `raise_for_status()` on that attempt:
the body, or `none` for a `RequestException` (timeout, connection
error, non-2xx status). -/
def fetch_loop {β : Type} (responses : Nat → Option β) (retries : Nat) :
    List Nat → FetchTrace β
  | [] => ⟨none, [], 0⟩
  | attempt :: rest =>
    match responses attempt with
    | some body => ⟨some body, [], 1⟩
    | none =>
      if attempt = retries then ⟨none, [], 1⟩
      else
        let t := fetch_loop responses retries rest
        ⟨t.result, 2 * attempt :: t.sleeps, t.attempts + 1⟩

/-- The fetch part of `fetch_product_info url retries timeout`. -/
def fetch_product_info_trace {β : Type} (responses : Nat → Option β)
    (retries : Nat) : FetchTrace β :=
  fetch_loop responses retries (range_from 1 retries)

theorem pySplit_tokens (s : List Char) :
    ∀ tok ∈ pySplit s, tok ≠ [] ∧ ∀ c ∈ tok, pyIsSpace c = false := by
  induction s using pySplit.induct with
  | case1 => simp [pySplit]
  | case2 c rest hsp ih =>
    intro tok htok
    rw [pySplit, if_pos hsp] at htok
    exact ih tok htok
  | case3 c rest hsp ih =>
    intro tok htok
    rw [pySplit, if_neg hsp] at htok
    rcases List.mem_cons.mp htok with h | h
    · subst h
      refine ⟨by simp, ?_⟩
      intro d hd
      rcases List.mem_cons.mp hd with rfl | hd
      · simpa using hsp
      · have := List.mem_takeWhile_imp hd
        simpa using this
    · exact ih tok h

theorem pySplit_eq_nil_iff (s : List Char) :
    pySplit s = [] ↔ ∀ c ∈ s, pyIsSpace c = true := by
  induction s using pySplit.induct with
  | case1 => simp [pySplit]
  | case2 c rest hsp ih =>
    rw [pySplit, if_pos hsp]
    simp [hsp, ih]
  | case3 c rest hsp ih =>
    rw [pySplit, if_neg hsp]
    constructor
    · intro h
      exact absurd h (by simp)
    · intro h
      exact absurd (h c (by simp)) hsp

theorem takeWhile_middle (p : Char → Bool) :
    ∀ (l : List Char) (x : Char) (r : List Char), (∀ c ∈ l, p c = true) → p x = false →
      List.takeWhile p (l ++ x :: r) = l := by
  intro l
  induction l with
  | nil => intro x r _ hx; simp [List.takeWhile_cons, hx]
  | cons a l ih =>
    intro x r hl hx
    have ha : p a = true := hl a (by simp)
    simp [List.takeWhile_cons, ha]
    exact ih x r (fun c hc => hl c (by simp [hc])) hx

theorem dropWhile_middle (p : Char → Bool) :
    ∀ (l : List Char) (x : Char) (r : List Char), (∀ c ∈ l, p c = true) → p x = false →
      List.dropWhile p (l ++ x :: r) = x :: r := by
  intro l
  induction l with
  | nil => intro x r _ hx; simp [List.dropWhile_cons, hx]
  | cons a l ih =>
    intro x r hl hx
    have ha : p a = true := hl a (by simp)
    simp [List.dropWhile_cons, ha]
    exact ih x r (fun c hc => hl c (by simp [hc])) hx

theorem pySplit_single (tok : List Char) (hne : tok ≠ [])
    (hns : ∀ c ∈ tok, pyIsSpace c = false) : pySplit tok = [tok] := by
  cases tok with
  | nil => exact absurd rfl hne
  | cons c cs =>
    have hc : pyIsSpace c = false := hns c (by simp)
    rw [pySplit, if_neg (by simp [hc])]
    have h1 : List.takeWhile (fun x => !pyIsSpace x) cs = cs := by
      apply List.takeWhile_eq_self_iff.mpr
      intro a ha
      simp [hns a (by simp [ha])]
    have h2 : List.dropWhile (fun x => !pyIsSpace x) cs = [] := by
      apply List.dropWhile_eq_nil_iff.mpr
      intro a ha
      simp [hns a (by simp [ha])]
    rw [h1, h2, pySplit]

theorem pySplit_token_sep (tok : List Char) (rest : List Char) (hne : tok ≠ [])
    (hns : ∀ c ∈ tok, pyIsSpace c = false) :
    pySplit (tok ++ ' ' :: rest) = tok :: pySplit rest := by
  cases tok with
  | nil => exact absurd rfl hne
  | cons c cs =>
    have hc : pyIsSpace c = false := hns c (by simp)
    rw [List.cons_append, pySplit, if_neg (by simp [hc])]
    have hcs : ∀ a ∈ cs, (fun x => !pyIsSpace x) a = true := by
      intro a ha
      simp [hns a (by simp [ha])]
    have hsep : (fun x => !pyIsSpace x) ' ' = false := by decide
    rw [takeWhile_middle _ cs ' ' rest hcs hsep, dropWhile_middle _ cs ' ' rest hcs hsep]
    rw [pySplit, if_pos (by decide)]

theorem intercalate_nil_toks (sep : List Char) : List.intercalate sep [] = [] := by
  simp [List.intercalate]

theorem intercalate_single (sep a : List Char) : List.intercalate sep [a] = a := by
  simp [List.intercalate]

theorem intercalate_cons_cons (sep a b : List Char) (l : List (List Char)) :
    List.intercalate sep (a :: b :: l) = a ++ sep ++ List.intercalate sep (b :: l) := by
  simp [List.intercalate, List.intersperse]

theorem pySplit_intercalate :
    ∀ toks : List (List Char), (∀ tok ∈ toks, tok ≠ [] ∧ ∀ c ∈ tok, pyIsSpace c = false) →
      pySplit (List.intercalate [' '] toks) = toks := by
  intro toks
  induction toks with
  | nil => intro _; rw [intercalate_nil_toks, pySplit]
  | cons t ts ih =>
    intro h
    cases ts with
    | nil =>
      rw [intercalate_single]
      exact pySplit_single t (h t (by simp)).1 (h t (by simp)).2
    | cons t2 ts2 =>
      rw [intercalate_cons_cons]
      have : t ++ [' '] ++ List.intercalate [' '] (t2 :: ts2)
          = t ++ ' ' :: List.intercalate [' '] (t2 :: ts2) := by
        simp
      rw [this, pySplit_token_sep t _ (h t (by simp)).1 (h t (by simp)).2]
      rw [ih (fun tok htok => h tok (by simp [htok]))]

theorem joinSplit_idem (s : List Char) : joinSplit (joinSplit s) = joinSplit s := by
  unfold joinSplit
  rw [pySplit_intercalate (pySplit s) (pySplit_tokens s)]

theorem pyStrip_ne_nil (s : List Char) (c : Char) (hc : c ∈ s)
    (hns : pyIsSpace c = false) : pyStrip s ≠ [] := by
  intro h
  unfold pyStrip at h
  have h2 : (s.dropWhile pyIsSpace).reverse.dropWhile pyIsSpace = [] := by
    simpa using congrArg List.reverse h
  have h3 : ∀ a ∈ (s.dropWhile pyIsSpace).reverse, pyIsSpace a = true :=
    List.dropWhile_eq_nil_iff.mp h2
  have h4 : ∀ a ∈ s.dropWhile pyIsSpace, pyIsSpace a = true := by
    intro a ha
    exact h3 a (by simpa using ha)
  have h5 : c ∈ s.takeWhile pyIsSpace ++ s.dropWhile pyIsSpace := by
    rw [List.takeWhile_append_dropWhile]
    exact hc
  rcases List.mem_append.mp h5 with h6 | h6
  · have := List.mem_takeWhile_imp h6
    rw [hns] at this
    cases this
  · have := h4 c h6
    rw [hns] at this
    cases this

theorem joinSplit_has_nonspace (s : List Char) (c : Char) (hc : c ∈ s)
    (hns : pyIsSpace c = false) :
    ∃ d ∈ joinSplit s, pyIsSpace d = false := by
  unfold joinSplit
  cases hsp : pySplit s with
  | nil =>
    have := (pySplit_eq_nil_iff s).mp hsp c hc
    rw [hns] at this
    cases this
  | cons tok toks =>
    have htok : tok ≠ [] ∧ ∀ d ∈ tok, pyIsSpace d = false := by
      apply pySplit_tokens s
      rw [hsp]
      simp
    cases tok with
    | nil => exact absurd rfl htok.1
    | cons d ds =>
      refine ⟨d, ?_, htok.2 d (by simp)⟩
      cases toks with
      | nil => rw [intercalate_single]; simp
      | cons t2 ts2 => rw [intercalate_cons_cons]; simp

theorem mem_range_from : ∀ (n a x : Nat), x ∈ range_from a n → a ≤ x ∧ x < a + n := by
  intro n
  induction n with
  | zero => intro a x h; cases h
  | succ m ih =>
    intro a x h
    rw [range_from] at h
    rcases List.mem_cons.mp h with rfl | h
    · omega
    · have := ih (a + 1) x h
      omega

theorem range_from_map_double_pairwise :
    ∀ (n a : Nat), ((range_from a n).map (fun k => 2 * k)).Pairwise (· < ·) := by
  intro n
  induction n with
  | zero => intro a; rw [range_from]; simp
  | succ m ih =>
    intro a
    rw [range_from]
    simp only [List.map_cons, List.pairwise_cons]
    constructor
    · intro y hy
      rcases List.mem_map.mp hy with ⟨k, hk, rfl⟩
      have := mem_range_from m (a + 1) k hk
      omega
    · exact ih (a + 1)

theorem fetch_loop_spec {β : Type} (responses : Nat → Option β) (retries : Nat) :
    ∀ len a, 1 ≤ a → a + len = retries + 1 →
      (fetch_loop responses retries (range_from a len)).attempts ≤ len ∧
      (0 < len → 1 ≤ (fetch_loop responses retries (range_from a len)).attempts) ∧
      (fetch_loop responses retries (range_from a len)).sleeps
        = (range_from a ((fetch_loop responses retries (range_from a len)).attempts - 1)).map
            (fun k => 2 * k) ∧
      (0 < len → (fetch_loop responses retries (range_from a len)).result
        = responses (a + (fetch_loop responses retries (range_from a len)).attempts - 1)) ∧
      (∀ k, a ≤ k → k < a + (fetch_loop responses retries (range_from a len)).attempts - 1 →
        responses k = none) ∧
      (0 < len → (fetch_loop responses retries (range_from a len)).result = none →
        a + (fetch_loop responses retries (range_from a len)).attempts - 1 = retries) := by
  intro len
  induction len with
  | zero =>
    intro a ha hsum
    rw [range_from]
    refine ⟨Nat.le_refl 0, by omega, by simp [fetch_loop, range_from], by omega, ?_, by omega⟩
    intro k hk1 hk2
    simp [fetch_loop] at hk2
    omega
  | succ n ih =>
    intro a ha hsum
    rw [range_from]
    cases hresp : responses a with
    | some body =>
      simp only [fetch_loop, hresp]
      refine ⟨by omega, fun _ => by omega, ?_, fun _ => by simpa using hresp.symm, ?_, ?_⟩
      · rw [range_from]; simp
      · intro k h1 h2; omega
      · intro _ hr; simp at hr
    | none =>
      by_cases hlast : a = retries
      · have hn : n = 0 := by omega
        subst hn
        simp only [fetch_loop, hresp, if_pos hlast]
        refine ⟨by omega, fun _ => by omega, ?_, fun _ => ?_, ?_, fun _ _ => by omega⟩
        · rw [range_from]; simp
        · have : a + 1 - 1 = a := by omega
          rw [this, hresp]
        · intro k h1 h2; omega
      · have hn : 0 < n := by omega
        have iha := ih (a + 1) (by omega) (by omega)
        simp only [fetch_loop, hresp, if_neg hlast]
        set t := fetch_loop responses retries (range_from (a + 1) n) with ht
        obtain ⟨i1, i2, i3, i4, i5, i6⟩ := iha
        have hta : 1 ≤ t.attempts := i2 hn
        refine ⟨by simpa using i1, fun _ => by omega, ?_, fun _ => ?_, ?_, fun _ hr => ?_⟩
        · have harr : t.attempts + 1 - 1 = (t.attempts - 1) + 1 := by omega
          rw [harr, range_from, List.map_cons, i3]
        · have heq : a + (t.attempts + 1) - 1 = a + 1 + t.attempts - 1 := by omega
          rw [heq]
          exact i4 hn
        · intro k hk1 hk2
          by_cases hk : k = a
          · subst hk; exact hresp
          · exact i5 k (by omega) (by omega)
        · have := i6 hn hr
          omega


theorem find_first_go_ok {E : Type} (resolve : Locator → Except (List Char) E) :
    ∀ (pre : List Locator) (acc : Option (List Char)) (loc : Locator) (post : List Locator)
      (e : E), (∀ l ∈ pre, ∃ m, resolve l = Except.error m) → resolve loc = Except.ok e →
      find_first_go resolve acc (pre ++ loc :: post) = Except.ok e := by
  intro pre
  induction pre with
  | nil =>
    intro acc loc post e _ hok
    simp [find_first_go, hok]
  | cons l0 pre ih =>
    intro acc loc post e hpre hok
    obtain ⟨m, hm⟩ := hpre l0 (by simp)
    rw [List.cons_append, find_first_go, hm]
    exact ih (some m) loc post e (fun l hl => hpre l (by simp [hl])) hok

theorem find_first_go_all_fail {E : Type} (resolve : Locator → Except (List Char) E) :
    ∀ (ls : List Locator) (acc : Option (List Char)) (loc : Locator) (m : List Char),
      ls.getLast? = some loc → resolve loc = Except.error m →
      (∀ l ∈ ls, ∃ m2, resolve l = Except.error m2) →
      find_first_go resolve acc ls = Except.error m := by
  intro ls
  induction ls with
  | nil => intro acc loc m h; cases h
  | cons l0 rest ih =>
    intro acc loc m hlast hloc hall
    cases rest with
    | nil =>
      have : l0 = loc := by simpa using hlast
      subst this
      rw [find_first_go, hloc]
      rfl
    | cons l1 rest2 =>
      obtain ⟨m0, hm0⟩ := hall l0 (by simp)
      rw [find_first_go, hm0]
      apply ih (some m0) loc m _ hloc (fun l hl => hall l (by simp [hl]))
      simpa using hlast

theorem first_text_match_none (soup : Soup) :
    ∀ sels : List (List Char), (∀ sel ∈ sels, soup.select_one sel = none) →
      _first_text_match soup sels = none := by
  intro sels
  induction sels with
  | nil => intro _; rfl
  | cons s rest ih =>
    intro h
    simp only [_first_text_match, h s (List.mem_cons_self s rest)]
    exact ih (fun sel hsel => h sel (List.mem_cons_of_mem s hsel))

/-- Claim C1: for every `ProductInfo`, the text returned by
`generate_review` has length at most 400 characters, and whenever the
untruncated assembled text exceeds 400 characters the result equals its
first 397 characters followed by a single ellipsis character. -/
theorem generate_review_length_cap (info : ProductInfo) :
    (generate_review info).length ≤ 400 ∧
    (400 < (review_untruncated info).length →
      generate_review info = (review_untruncated info).take 397 ++ ['…']) := by
  unfold generate_review
  by_cases h : (review_untruncated info).length > 400
  · rw [if_pos h]
    refine ⟨?_, fun _ => rfl⟩
    simp only [List.length_append, List.length_take, List.length_cons, List.length_nil]
    omega
  · rw [if_neg h]
    exact ⟨by omega, fun hc => absurd hc h⟩

set_option maxRecDepth 100000 in
/-- Witness for C1 at a `ProductInfo` whose assembled review exceeds
400 characters. -/
theorem generate_review_length_cap_witness :
    400 < (review_untruncated ⟨List.replicate 400 'あ', none, none⟩).length ∧
    generate_review ⟨List.replicate 400 'あ', none, none⟩
      = (review_untruncated ⟨List.replicate 400 'あ', none, none⟩).take 397 ++ ['…'] :=
  ⟨by decide, (generate_review_length_cap ⟨List.replicate 400 'あ', none, none⟩).2 (by decide)⟩

set_option maxRecDepth 100000 in
/-- Claim C10: for the scenario input, the review's first line is the
expected summary line, followed by a blank line and exactly the three
bullet lines, and the total length is at most 400 characters. -/
theorem generate_review_scenario :
    List.splitOn '\n' (generate_review ⟨"フード付きブランケット".toList,
        some "¥3,980".toList, some "○○ショップ".toList⟩)
      = ["要点: フード付きブランケット・¥3,980で手に入る・○○ショップの人気アイテム".toList,
         [],
         "・デザイン: フード付きブランケットの魅力を活かした上質な仕上がり。".toList,
         "・使い勝手: 日常から特別なシーンまで幅広く活躍。".toList,
         "・満足度: 口コミでも高評価で贈り物にもおすすめ。".toList] ∧
    (generate_review ⟨"フード付きブランケット".toList, some "¥3,980".toList,
        some "○○ショップ".toList⟩).length ≤ 400 := by
  decide

/-- Claim C4: when no selector of any of the three configured selector
lists matches, extraction returns the default placeholder title and
`none` for price and shop name. -/
theorem extract_all_fail (soup : Soup)
    (hT : ∀ sel ∈ DEFAULT_TITLE_SELECTORS, soup.select_one sel = none)
    (hP : ∀ sel ∈ DEFAULT_PRICE_SELECTORS, soup.select_one sel = none)
    (hS : ∀ sel ∈ DEFAULT_SHOP_SELECTORS, soup.select_one sel = none) :
    extract_product_info soup = ⟨default_title, none, none⟩ := by
  simp only [extract_product_info]
  rw [first_text_match_none soup DEFAULT_TITLE_SELECTORS hT,
      first_text_match_none soup DEFAULT_PRICE_SELECTORS hP,
      first_text_match_none soup DEFAULT_SHOP_SELECTORS hS]
  decide

/-- Witness for C4 on a document in which no selector matches. -/
theorem extract_all_fail_witness :
    extract_product_info ⟨fun _ => none⟩ = ⟨default_title, none, none⟩ :=
  extract_all_fail ⟨fun _ => none⟩ (fun _ _ => rfl) (fun _ _ => rfl) (fun _ _ => rfl)

/-- Claim C5: when the first selector of a list matches a node, the
remaining selectors are never consulted — the result is determined by
that node alone — and the node's `content` attribute is preferred over
its visible text. -/
theorem first_text_match_first (soup : Soup) (sel : List Char)
    (rest : List (List Char)) (node : Node)
    (h : soup.select_one sel = some node) :
    _first_text_match soup (sel :: rest) = some (node_value node) ∧
    (∀ c, node.content = some c → node_value node = c) ∧
    (node.content = none → node_value node = node.text) := by
  refine ⟨?_, ?_, ?_⟩
  · simp only [_first_text_match, h]
  · intro c hc
    simp [node_value, hc]
  · intro hc
    simp [node_value, hc]

/-- Witness for C5 on a two-selector list whose first selector matches
a node carrying a `content` attribute. -/
theorem first_text_match_first_witness :
    _first_text_match ⟨fun _ => some ⟨some ['x'], ['t']⟩⟩ [['a'], ['b']]
      = some (node_value ⟨some ['x'], ['t']⟩) ∧
    (∀ c, (some ['x'] : Option (List Char)) = some c → node_value ⟨some ['x'], ['t']⟩ = c) ∧
    ((some ['x'] : Option (List Char)) = none →
      node_value ⟨some ['x'], ['t']⟩ = ['t']) :=
  first_text_match_first ⟨fun _ => some ⟨some ['x'], ['t']⟩⟩ ['a'] [['b']]
    ⟨some ['x'], ['t']⟩ rfl

/-- Counterexample for C7: the empty string is a possible output of the
normalisation function `_clean_text` (it is produced from the
whitespace-only input " "), yet normalising it again yields `None`
rather than the empty string, so normalisation is not idempotent on all
of its outputs. -/
theorem clean_text_idempotent_cex :
    _clean_text (some [' ']) = some [] ∧ _clean_text (some []) ≠ some [] := by
  constructor
  · have h1 : pySplit [' '] = [] := by
      rw [pySplit, if_pos (by decide), pySplit]
    simp only [_clean_text, joinSplit]
    rw [if_neg (by decide), h1, intercalate_nil_toks]
  · decide

/-- Claim C7 (amended): `_clean_text` is idempotent on every non-empty
output: if `_clean_text v` returns the string `t` and `t` is non-empty,
then `_clean_text (some t) = some t`.  (The empty-string output, which
arises exactly from non-empty all-whitespace input, instead maps to
`None` on a second application.) -/
theorem clean_text_idempotent_nonempty (v : Option (List Char)) (t : List Char)
    (h : _clean_text v = some t) (hne : t ≠ []) :
    _clean_text (some t) = some t := by
  cases v with
  | none => exact absurd h (by simp [_clean_text])
  | some s =>
    simp only [_clean_text] at h
    by_cases hs : s.isEmpty
    · rw [if_pos hs] at h; cases h
    · rw [if_neg hs] at h
      have ht : joinSplit s = t := Option.some.inj h
      simp only [_clean_text]
      rw [if_neg (by simp [List.isEmpty_iff, hne])]
      rw [← ht, joinSplit_idem s]

/-- Witness for C7 (amended) at the already-normalised string "a". -/
theorem clean_text_idempotent_nonempty_witness :
    _clean_text (some ['a']) = some ['a'] :=
  clean_text_idempotent_nonempty (some ['a']) ['a']
    (by simp only [_clean_text, joinSplit]
        rw [if_neg (by decide), pySplit_single ['a'] (by decide) (by decide),
            intercalate_single])
    (by decide)

/-- Counterexample for C6: a document whose title selector matches a
node with a whitespace-only `content` attribute makes extraction return
an empty title — the matched text " " is truthy, so the default is not
substituted, and the final `.strip()` reduces it to the empty string. -/
theorem extract_title_empty_cex :
    (extract_product_info
        ⟨fun s => if s = "meta[property=\x27og:title\x27]".toList
          then some ⟨some [' '], []⟩ else none⟩).title = [] := by
  decide

/-- Claim C6 (amended): the extracted title is non-empty whenever the
matched title text — if any matched and it is non-empty — contains at
least one non-whitespace character; in particular it is non-empty when
no title selector matches (default placeholder) or the matched text is
empty.  (A matched non-empty but all-whitespace text instead yields an
empty title.) -/
theorem extract_title_nonempty (soup : Soup)
    (h : ∀ t, _first_text_match soup DEFAULT_TITLE_SELECTORS = some t → t ≠ [] →
      ∃ c ∈ t, pyIsSpace c = false) :
    (extract_product_info soup).title ≠ [] := by
  simp only [extract_product_info]
  cases m : _first_text_match soup DEFAULT_TITLE_SELECTORS with
  | none =>
    simp only [py_or]
    decide
  | some t =>
    by_cases ht : t = []
    · subst ht
      simp only [py_or, List.isEmpty_nil, if_pos rfl]
      decide
    · obtain ⟨c, hcmem, hcns⟩ := h t m ht
      have hpy : py_or (some t) default_title = t := by
        simp [py_or, List.isEmpty_iff, ht]
      rw [hpy]
      by_cases hnl : (!t.isEmpty && t.contains '\n') = true
      · rw [if_pos hnl]
        obtain ⟨d, hd, hdns⟩ := joinSplit_has_nonspace t c hcmem hcns
        exact pyStrip_ne_nil (joinSplit t) d hd hdns
      · rw [if_neg hnl]
        exact pyStrip_ne_nil t c hcmem hcns

/-- Witness for C6 (amended) on a document in which no title selector
matches, so the non-empty default placeholder is used. -/
theorem extract_title_nonempty_witness :
    (extract_product_info ⟨fun _ => none⟩).title ≠ [] :=
  extract_title_nonempty ⟨fun _ => none⟩
    (by intro t ht hne
        rw [show _first_text_match ⟨fun _ => none⟩ DEFAULT_TITLE_SELECTORS = none from rfl] at ht
        cases ht)

/-- Claim C2: with `retries = N ≥ 1` the fetch loop makes at most N
attempts (and at least one); its backoff sleeps are exactly
`2 * k` for the failed attempts `k = 1, ..., attempts - 1`, hence
strictly increasing and absent after the final attempt; every attempt
before the last one failed (the loop stops at the first success, whose
body becomes the result); and the loop signals `FetchFailed` (result
`none`) only after the full N attempts. -/
theorem fetch_retry_spec {β : Type} (responses : Nat → Option β) (N : Nat) (hN : 1 ≤ N) :
    (fetch_product_info_trace responses N).attempts ≤ N ∧
    1 ≤ (fetch_product_info_trace responses N).attempts ∧
    (fetch_product_info_trace responses N).sleeps
      = (range_from 1 ((fetch_product_info_trace responses N).attempts - 1)).map
          (fun k => 2 * k) ∧
    (fetch_product_info_trace responses N).sleeps.Pairwise (· < ·) ∧
    (∀ k, 1 ≤ k → k < (fetch_product_info_trace responses N).attempts → responses k = none) ∧
    (fetch_product_info_trace responses N).result
      = responses (fetch_product_info_trace responses N).attempts ∧
    ((fetch_product_info_trace responses N).result = none →
      (fetch_product_info_trace responses N).attempts = N) := by
  have h := fetch_loop_spec responses N N 1 (by omega) (by omega)
  obtain ⟨i1, i2, i3, i4, i5, i6⟩ := h
  unfold fetch_product_info_trace
  refine ⟨i1, i2 (by omega), i3, ?_, ?_, ?_, ?_⟩
  · rw [i3]
    exact range_from_map_double_pairwise _ _
  · intro k hk1 hk2
    exact i5 k hk1 (by omega)
  · have h4 := i4 (by omega)
    have harith : 1 + (fetch_loop responses N (range_from 1 N)).attempts - 1
        = (fetch_loop responses N (range_from 1 N)).attempts := by omega
    rw [harith] at h4
    exact h4
  · intro hr
    have := i6 (by omega) hr
    omega

/-- Witness for C2 with two attempts that both fail: two GET attempts,
one sleep of 2 time units after the first failure, none after the
second, and a `FetchFailed` outcome. -/
theorem fetch_retry_spec_witness :
    (1 ≤ 2) ∧
    ((fetch_product_info_trace (fun _ => (none : Option Nat)) 2).attempts ≤ 2 ∧
     1 ≤ (fetch_product_info_trace (fun _ => (none : Option Nat)) 2).attempts ∧
     (fetch_product_info_trace (fun _ => (none : Option Nat)) 2).sleeps
       = (range_from 1
           ((fetch_product_info_trace (fun _ => (none : Option Nat)) 2).attempts - 1)).map
           (fun k => 2 * k) ∧
     (fetch_product_info_trace (fun _ => (none : Option Nat)) 2).sleeps.Pairwise (· < ·) ∧
     (∀ k, 1 ≤ k →
       k < (fetch_product_info_trace (fun _ => (none : Option Nat)) 2).attempts →
       (fun _ => (none : Option Nat)) k = none) ∧
     (fetch_product_info_trace (fun _ => (none : Option Nat)) 2).result
       = (fun _ => (none : Option Nat))
           (fetch_product_info_trace (fun _ => (none : Option Nat)) 2).attempts ∧
     ((fetch_product_info_trace (fun _ => (none : Option Nat)) 2).result = none →
       (fetch_product_info_trace (fun _ => (none : Option Nat)) 2).attempts = 2)) :=
  ⟨by decide, fetch_retry_spec (fun _ => (none : Option Nat)) 2 (by decide)⟩

/-- Claim C3: `_find_first_element` returns the element of the first
succeeding locator when one exists; when every locator fails it raises
a failure carrying the message of the last locator's wait failure; and
on an empty locator list it raises the generic "No selectors provided"
failure. -/
theorem find_first_element_spec {E : Type} (resolve : Locator → Except (List Char) E)
    (ls : List Locator) :
    (ls = [] → _find_first_element resolve ls = Except.error no_selectors_msg) ∧
    (∀ (pre : List Locator) (loc : Locator) (post : List Locator) (e : E),
      ls = pre ++ loc :: post → (∀ l ∈ pre, ∃ m, resolve l = Except.error m) →
      resolve loc = Except.ok e → _find_first_element resolve ls = Except.ok e) ∧
    (∀ (loc : Locator) (m : List Char), ls.getLast? = some loc →
      resolve loc = Except.error m → (∀ l ∈ ls, ∃ m2, resolve l = Except.error m2) →
      _find_first_element resolve ls = Except.error m) := by
  refine ⟨?_, ?_, ?_⟩
  · intro h
    subst h
    rfl
  · intro pre loc post e hls hpre hok
    subst hls
    exact find_first_go_ok resolve pre none loc post e hpre hok
  · intro loc m hlast hloc hall
    exact find_first_go_all_fail resolve ls none loc m hlast hloc hall

/-- Witness for C3 on a one-locator list whose only locator fails: the
failure carries that last wait failure's message. -/
theorem find_first_element_spec_witness :
    _find_first_element (fun _ => (Except.error ['z'] : Except (List Char) Unit))
      [(By.id, ['u'])] = Except.error ['z'] :=
  (find_first_element_spec (fun _ => (Except.error ['z'] : Except (List Char) Unit))
      [(By.id, ['u'])]).2.2 (By.id, ['u']) ['z'] (by decide) rfl
    (fun l hl => ⟨['z'], rfl⟩)

/-- Claim C8: without credentials `login_if_required` returns at once
and performs no browser interaction; with credentials but an
unlocatable username or password field it returns without error
("no login required"); with both fields found but no locatable login
submit control it signals the fatal "submit button not found" error. -/
theorem login_if_required_spec {E : Type} (resolve : Locator → Except (List Char) E)
    (config : RoomPosterConfig) :
    ((opt_truthy config.username = false ∨ opt_truthy config.password = false) →
      login_if_required resolve config = (LoginResult.noCredentials, [])) ∧
    (opt_truthy config.username = true → opt_truthy config.password = true →
      ((∃ m, _find_first_element resolve LOGIN_USERNAME_SELECTORS = Except.error m) ∨
       (∃ m, _find_first_element resolve LOGIN_PASSWORD_SELECTORS = Except.error m)) →
      (login_if_required resolve config).1 = LoginResult.noLoginForm) ∧
    (opt_truthy config.username = true → opt_truthy config.password = true →
      (∃ u, _find_first_element resolve LOGIN_USERNAME_SELECTORS = Except.ok u) →
      (∃ p, _find_first_element resolve LOGIN_PASSWORD_SELECTORS = Except.ok p) →
      (∃ m, _find_first_element resolve LOGIN_SUBMIT_SELECTORS = Except.error m) →
      (login_if_required resolve config).1 = LoginResult.submitNotFound) := by
  refine ⟨?_, ?_, ?_⟩
  · intro h
    rcases h with h | h <;> simp [login_if_required, h]
  · intro hu hp hor
    rcases hor with ⟨m, hm⟩ | ⟨m, hm⟩
    · simp [login_if_required, hu, hp, hm]
    · cases hU : _find_first_element resolve LOGIN_USERNAME_SELECTORS with
      | error m2 => simp [login_if_required, hu, hp, hU]
      | ok u => simp [login_if_required, hu, hp, hU, hm]
  · intro hu hp hfu hfp hfs
    obtain ⟨u, hu2⟩ := hfu
    obtain ⟨p, hp2⟩ := hfp
    obtain ⟨m, hm⟩ := hfs
    simp [login_if_required, hu, hp, hu2, hp2, hm]

/-- Witness for C8 with absent credentials: no interaction happens. -/
theorem login_if_required_spec_witness :
    login_if_required (fun _ => (Except.error ['z'] : Except (List Char) Unit))
      ⟨none, none, true, DEFAULT_ROOM_REVIEW_SELECTORS, DEFAULT_ROOM_SUBMIT_SELECTORS⟩
      = (LoginResult.noCredentials, []) :=
  (login_if_required_spec (fun _ => (Except.error ['z'] : Except (List Char) Unit))
      ⟨none, none, true, DEFAULT_ROOM_REVIEW_SELECTORS,
       DEFAULT_ROOM_SUBMIT_SELECTORS⟩).1 (Or.inl rfl)

/-- Claim C9: on every exit path of the browser workflow — each of the
three steps succeeding or raising — `driver.quit()` is performed
exactly once, and as the final event before the workflow ends. -/
theorem main_quit_always {E : Type} (nav login post : Except E Unit) :
    (main_browser_phase nav login post).2.count WorkflowEvent.quitDriver = 1 ∧
    (main_browser_phase nav login post).2.getLast? = some WorkflowEvent.quitDriver := by
  cases nav <;> cases login <;> cases post <;> exact ⟨rfl, rfl⟩
